import Mathlib

/-!
Verification of the rectangle-smoothing core of the index-rectangle
inverter: a shallow embedding of `geometry.py` (`Point`, `Rect`),
`smoothing.py` (`EMASmoother`), `config.py` (`Config`) and
`rectangle_controller.py` (`RectangleController`), with theorems about
the spec's testable properties.

Coordinates are integers (`ℤ`); the smoothing factor is an exact
rational (`ℚ`); Python's `int(...)` conversion (truncation toward zero)
is modelled by `pyInt`. Fallible construction (`raise ValueError`)
is modelled with `Except String`.
-/

/-- Python `int(q)` on a real value: truncation toward zero
(floor for nonnegative values, ceiling for negative ones). -/
def pyInt (q : ℚ) : ℤ :=
  if 0 ≤ q then ⌊q⌋ else ⌈q⌉

/-- `geometry.Point`: an integer 2D coordinate. -/
structure Point where
  x : ℤ
  y : ℤ
deriving DecidableEq

/-- `geometry.Rect`: four integer coordinates naming two opposite corners. -/
structure Rect where
  x1 : ℤ
  y1 : ℤ
  x2 : ℤ
  y2 : ℤ
deriving DecidableEq

/-- `Rect.ordered`: sort the x-pair and the y-pair independently
(`a = sorted([x1,x2]); b = sorted([y1,y2]); Rect(a[0], b[0], a[1], b[1])`). -/
def Rect.ordered (r : Rect) : Rect :=
  ⟨min r.x1 r.x2, min r.y1 r.y2, max r.x1 r.x2, max r.y1 r.y2⟩

/-- `Rect.clamp`: bound every coordinate into `[0, w-1]` × `[0, h-1]`,
then reorder (`max(0, min(c, w - 1))` per coordinate, then `.ordered()`). -/
def Rect.clamp (r : Rect) (w h : ℤ) : Rect :=
  (Rect.mk (max 0 (min r.x1 (w - 1))) (max 0 (min r.y1 (h - 1)))
           (max 0 (min r.x2 (w - 1))) (max 0 (min r.y2 (h - 1)))).ordered

/-- `Rect.valid(min_size)`: `(x2 - x1) >= min_size and (y2 - y1) >= min_size`. -/
def Rect.valid (r : Rect) (min_size : ℤ) : Bool :=
  decide (min_size ≤ r.x2 - r.x1) && decide (min_size ≤ r.y2 - r.y1)

/-- `smoothing.EMASmoother`: the smoothing factor `alpha` and the optional
remembered point `_prev` (`None` until the first observation). -/
structure EMASmoother where
  alpha : ℚ
  _prev : Option Point
deriving DecidableEq

/-- `EMASmoother.__init__`: `raise ValueError("alpha must be in [0,1]")`
unless `0.0 <= alpha <= 1.0`; otherwise the state starts with `_prev = None`. -/
def EMASmoother.mk' (alpha : ℚ) : Except String EMASmoother :=
  if 0 ≤ alpha ∧ alpha ≤ 1 then .ok ⟨alpha, none⟩
  else .error "alpha must be in [0,1]"

/-- One axis of the EMA update: `int(prev * (1 - alpha) + obs * alpha)`. -/
def emaAxis (alpha : ℚ) (prev obs : ℤ) : ℤ :=
  pyInt ((prev : ℚ) * (1 - alpha) + (obs : ℚ) * alpha)

/-- `EMASmoother.update`: first call stores and returns the input;
later calls blend each axis with `emaAxis` and store the result.
Returns the new state paired with the returned point. -/
def EMASmoother.update (s : EMASmoother) (new_p : Point) : EMASmoother × Point :=
  match s._prev with
  | none => ({ s with _prev := some new_p }, new_p)
  | some p =>
      let sp : Point := ⟨emaAxis s.alpha p.x new_p.x, emaAxis s.alpha p.y new_p.y⟩
      ({ s with _prev := some sp }, sp)

/-- `EMASmoother.reset`: `self._prev = None`. -/
def EMASmoother.reset (s : EMASmoother) : EMASmoother :=
  { s with _prev := none }

/-- `config.Config`, restricted to the two fields the modelled core reads
(`smooth_alpha`, `min_rect_size`); the remaining fields configure the
out-of-scope camera/detector/renderer collaborators. The dataclass
performs no validation of its own. -/
structure Config where
  smooth_alpha : ℚ
  min_rect_size : ℤ
deriving DecidableEq

/-- `rectangle_controller.RectangleController`: the configuration, the two
per-slot smoothers and the optional last accepted rectangle. -/
structure RectangleController where
  cfg : Config
  _smooth1 : EMASmoother
  _smooth2 : EMASmoother
  _last_rect : Option Rect
deriving DecidableEq

/-- `RectangleController.__init__`: builds the two smoothers from
`cfg.smooth_alpha` (each of which validates alpha) and starts with
`_last_rect = None`. `min_rect_size` is stored unvalidated. -/
def RectangleController.mk' (cfg : Config) : Except String RectangleController :=
  match EMASmoother.mk' cfg.smooth_alpha, EMASmoother.mk' cfg.smooth_alpha with
  | .ok s1, .ok s2 => .ok ⟨cfg, s1, s2, none⟩
  | .error e, _ => .error e
  | _, .error e => .error e

/-- `RectangleController.reset`: reset both smoothers, drop `_last_rect`. -/
def RectangleController.reset (c : RectangleController) : RectangleController :=
  { c with _smooth1 := c._smooth1.reset, _smooth2 := c._smooth2.reset,
           _last_rect := none }

/-- `RectangleController.update`: with at least two tips, smooth `tips[0]`
and `tips[1]`, build `Rect(p1.x, p1.y, p2.x, p2.y).ordered().clamp(w, h)`,
keep it only when `valid(min_rect_size)`; always return the stored
`_last_rect` (paired with the new state). -/
def RectangleController.update (c : RectangleController) (tips : List Point)
    (w h : ℤ) : RectangleController × Option Rect :=
  match tips with
  | t1 :: t2 :: _ =>
      let r1 := c._smooth1.update t1
      let r2 := c._smooth2.update t2
      let rect := (Rect.mk r1.2.x r1.2.y r2.2.x r2.2.y).ordered.clamp w h
      let last := if rect.valid c.cfg.min_rect_size then some rect
                  else c._last_rect
      ({ c with _smooth1 := r1.1, _smooth2 := r2.1, _last_rect := last }, last)
  | _ => (c, c._last_rect)

/-- `true` exactly when an `Except` computation succeeded. -/
def exceptOk {ε α : Type} : Except ε α → Bool
  | .ok _ => true
  | .error _ => false

/-- Iterated controller update over a list of frames
(tips, frame width, frame height); returns the final state. -/
def RectangleController.run (c : RectangleController) :
    List (List Point × ℤ × ℤ) → RectangleController
  | [] => c
  | f :: fs => ((c.update f.1 f.2.1 f.2.2).1).run fs

/-- The per-frame return values of iterated controller updates. -/
def RectangleController.runOutputs (c : RectangleController) :
    List (List Point × ℤ × ℤ) → List (Option Rect)
  | [] => []
  | f :: fs =>
      (c.update f.1 f.2.1 f.2.2).2 ::
        ((c.update f.1 f.2.1 f.2.2).1).runOutputs fs

/-- A frame on which the controller accepts nothing from the current state
`c`: fewer than two tips, or the derived (ordered, clamped) rectangle of
the two freshly smoothed points fails the `min_rect_size` validity check. -/
def badFrame (c : RectangleController) (f : List Point × ℤ × ℤ) : Bool :=
  match f.1 with
  | t1 :: t2 :: _ =>
      ! ((Rect.mk (c._smooth1.update t1).2.x (c._smooth1.update t1).2.y
                  (c._smooth2.update t2).2.x (c._smooth2.update t2).2.y).ordered.clamp
            f.2.1 f.2.2).valid c.cfg.min_rect_size
  | _ => true

/-- Every frame of the list is a `badFrame` at the state the run reaches. -/
def gapFrames (c : RectangleController) : List (List Point × ℤ × ℤ) → Bool
  | [] => true
  | f :: fs => badFrame c f && gapFrames (c.update f.1 f.2.1 f.2.2).1 fs

/-- Pure per-axis iteration of the EMA step with a constant observation. -/
def emaAxisIter (alpha : ℚ) (obs : ℤ) : ℕ → ℤ → ℤ
  | 0, x => x
  | n + 1, x => emaAxis alpha (emaAxisIter alpha obs n x) obs

/-- The smoother state after `n` further updates with the constant point `P`. -/
def EMASmoother.runConst (s : EMASmoother) (P : Point) : ℕ → EMASmoother
  | 0 => s
  | n + 1 => ((s.runConst P n).update P).1
/-- C8: `ordered` is idempotent and invariant under swapping the two corners. -/
theorem ordered_idem_swap (x1 y1 x2 y2 : ℤ) :
    (Rect.mk x1 y1 x2 y2).ordered.ordered = (Rect.mk x1 y1 x2 y2).ordered ∧
    (Rect.mk x1 y1 x2 y2).ordered = (Rect.mk x2 y2 x1 y1).ordered := by
  simp only [Rect.ordered, Rect.mk.injEq]
  omega

/-- C9: a rectangle whose sides both equal `min_size` is valid, and shrinking
either side by one pixel makes it invalid. -/
theorem valid_boundary (m a b : ℤ) :
    (Rect.mk a b (a + m) (b + m)).valid m = true ∧
    (Rect.mk a b (a + m - 1) (b + m)).valid m = false ∧
    (Rect.mk a b (a + m) (b + m - 1)).valid m = false := by
  simp only [Rect.valid, Bool.and_eq_true, decide_eq_true_eq, Bool.and_eq_false_iff,
    decide_eq_false_iff_not]
  omega

/-- C7: for positive frame dimensions, every coordinate of `clamp` lies in
`[0, w-1]` × `[0, h-1]` and the result is normalized. -/
theorem clamp_bounds (r : Rect) (w h : ℤ) (hw : 0 < w) (hh : 0 < h) :
    0 ≤ (r.clamp w h).x1 ∧ (r.clamp w h).x1 ≤ w - 1 ∧
    0 ≤ (r.clamp w h).x2 ∧ (r.clamp w h).x2 ≤ w - 1 ∧
    0 ≤ (r.clamp w h).y1 ∧ (r.clamp w h).y1 ≤ h - 1 ∧
    0 ≤ (r.clamp w h).y2 ∧ (r.clamp w h).y2 ≤ h - 1 ∧
    (r.clamp w h).x1 ≤ (r.clamp w h).x2 ∧ (r.clamp w h).y1 ≤ (r.clamp w h).y2 := by
  simp only [Rect.clamp, Rect.ordered]
  omega

/-- C7 witness: concrete instance at `R = (-7, 900, 5000, -3)`, 640×480. -/
theorem clamp_bounds_witness :
    (0 : ℤ) < 640 ∧ (0 : ℤ) < 480 ∧
    (0 ≤ ((Rect.mk (-7) 900 5000 (-3)).clamp 640 480).x1 ∧
     ((Rect.mk (-7) 900 5000 (-3)).clamp 640 480).x1 ≤ 640 - 1 ∧
     0 ≤ ((Rect.mk (-7) 900 5000 (-3)).clamp 640 480).x2 ∧
     ((Rect.mk (-7) 900 5000 (-3)).clamp 640 480).x2 ≤ 640 - 1 ∧
     0 ≤ ((Rect.mk (-7) 900 5000 (-3)).clamp 640 480).y1 ∧
     ((Rect.mk (-7) 900 5000 (-3)).clamp 640 480).y1 ≤ 480 - 1 ∧
     0 ≤ ((Rect.mk (-7) 900 5000 (-3)).clamp 640 480).y2 ∧
     ((Rect.mk (-7) 900 5000 (-3)).clamp 640 480).y2 ≤ 480 - 1 ∧
     ((Rect.mk (-7) 900 5000 (-3)).clamp 640 480).x1 ≤
       ((Rect.mk (-7) 900 5000 (-3)).clamp 640 480).x2 ∧
     ((Rect.mk (-7) 900 5000 (-3)).clamp 640 480).y1 ≤
       ((Rect.mk (-7) 900 5000 (-3)).clamp 640 480).y2) :=
  ⟨by decide, by decide, clamp_bounds (Rect.mk (-7) 900 5000 (-3)) 640 480
    (by decide) (by decide)⟩

/-- C4: smoother construction succeeds exactly when `0 ≤ α ≤ 1`; in
particular `α = -0.01` and `α = 1.01` fail while `α = 0` and `α = 1`
succeed. (`update` is a total function of the state and input: no error
is possible after construction.) -/
theorem smoother_construction_validation (alpha : ℚ) :
    exceptOk (EMASmoother.mk' alpha) = decide (0 ≤ alpha ∧ alpha ≤ 1) ∧
    exceptOk (EMASmoother.mk' (-1/100)) = false ∧
    exceptOk (EMASmoother.mk' (101/100)) = false ∧
    exceptOk (EMASmoother.mk' 0) = true ∧
    exceptOk (EMASmoother.mk' 1) = true := by
  have key : ∀ a : ℚ, exceptOk (EMASmoother.mk' a) = decide (0 ≤ a ∧ a ≤ 1) := by
    intro a
    by_cases h : 0 ≤ a ∧ a ≤ 1 <;> simp [EMASmoother.mk', h, exceptOk]
  refine ⟨key alpha, ?_, ?_, ?_, ?_⟩ <;>
    simp only [key, decide_eq_false_iff_not, decide_eq_true_eq] <;> norm_num
/-- C2 counterexample: construction with `α = 1/2` and `minSize = -5`
succeeds, contradicting the claim that a negative `minSize` is rejected. -/
theorem controller_construction_accepts_negative_min_size :
    exceptOk (RectangleController.mk' (Config.mk (1/2) (-5))) = true := by
  norm_num [RectangleController.mk', EMASmoother.mk', exceptOk]

/-- C2 amended: controller construction validates only `α` (through the two
smoothers it builds): it succeeds exactly when `0 ≤ α ≤ 1`, for every
`min_rect_size`, which is never validated. -/
theorem controller_construction_validates_alpha_only (cfg : Config) :
    exceptOk (RectangleController.mk' cfg) =
      decide (0 ≤ cfg.smooth_alpha ∧ cfg.smooth_alpha ≤ 1) := by
  by_cases h : 0 ≤ cfg.smooth_alpha ∧ cfg.smooth_alpha ≤ 1 <;>
    simp [RectangleController.mk', EMASmoother.mk', h, exceptOk]

/-- C6: for any valid `α`, the first `update` after construction or after
`reset` returns exactly the input point, which becomes the remembered state. -/
theorem smoother_first_call_identity (alpha : ℚ) (P : Point) (s : EMASmoother)
    (h0 : 0 ≤ alpha) (h1 : alpha ≤ 1) (hs : s.alpha = alpha) :
    (EMASmoother.mk alpha none).update P = (EMASmoother.mk alpha (some P), P) ∧
    s.reset.update P = (EMASmoother.mk alpha (some P), P) := by
  cases s with
  | mk a p => cases hs; exact ⟨rfl, rfl⟩

/-- C6 witness: `α = 1/2`, `P = (3,4)`, reset from remembered state `(9,9)`. -/
theorem smoother_first_call_identity_witness :
    (0 : ℚ) ≤ 1/2 ∧ (1/2 : ℚ) ≤ 1 ∧
    (EMASmoother.mk (1/2) (some (Point.mk 9 9))).alpha = 1/2 ∧
    ((EMASmoother.mk (1/2) none).update (Point.mk 3 4) =
        (EMASmoother.mk (1/2) (some (Point.mk 3 4)), Point.mk 3 4) ∧
      (EMASmoother.mk (1/2) (some (Point.mk 9 9))).reset.update (Point.mk 3 4) =
        (EMASmoother.mk (1/2) (some (Point.mk 3 4)), Point.mk 3 4)) :=
  ⟨by norm_num, by norm_num, rfl,
    smoother_first_call_identity (1/2) (Point.mk 3 4)
      (EMASmoother.mk (1/2) (some (Point.mk 9 9))) (by norm_num) (by norm_num) rfl⟩

/-- C3: with `α = 2/5`, `minSize = 3`, frame 640×480, a fresh controller maps
`[(100,100),(200,200)]` to rectangle `(100,100,200,200)` and then
`[(140,100),(200,160)]` to `(116,100,200,184)`, the smoothed points being
`(116,100)` and `(200,184)`. -/
theorem end_to_end_scenario_AB :
    RectangleController.mk' (Config.mk (2/5) 3) =
      .ok (RectangleController.mk (Config.mk (2/5) 3)
        (EMASmoother.mk (2/5) none) (EMASmoother.mk (2/5) none) none) ∧
    (RectangleController.mk (Config.mk (2/5) 3)
        (EMASmoother.mk (2/5) none) (EMASmoother.mk (2/5) none) none).update
        [Point.mk 100 100, Point.mk 200 200] 640 480 =
      (RectangleController.mk (Config.mk (2/5) 3)
        (EMASmoother.mk (2/5) (some (Point.mk 100 100)))
        (EMASmoother.mk (2/5) (some (Point.mk 200 200)))
        (some (Rect.mk 100 100 200 200)),
       some (Rect.mk 100 100 200 200)) ∧
    (RectangleController.mk (Config.mk (2/5) 3)
        (EMASmoother.mk (2/5) (some (Point.mk 100 100)))
        (EMASmoother.mk (2/5) (some (Point.mk 200 200)))
        (some (Rect.mk 100 100 200 200))).update
        [Point.mk 140 100, Point.mk 200 160] 640 480 =
      (RectangleController.mk (Config.mk (2/5) 3)
        (EMASmoother.mk (2/5) (some (Point.mk 116 100)))
        (EMASmoother.mk (2/5) (some (Point.mk 200 184)))
        (some (Rect.mk 116 100 200 184)),
       some (Rect.mk 116 100 200 184)) := by
  refine ⟨?_, ?_, ?_⟩
  · norm_num [RectangleController.mk', EMASmoother.mk']
  · norm_num [RectangleController.update, EMASmoother.update, Rect.ordered,
      Rect.clamp, Rect.valid]
  · norm_num [RectangleController.update, EMASmoother.update, Rect.ordered,
      Rect.clamp, Rect.valid, emaAxis, pyInt]
/-- A single smoother update always stores the returned point as the new
remembered state. -/
lemma update_stores_output (s : EMASmoother) (p : Point) :
    (s.update p).1._prev = some (s.update p).2 := by
  cases hs : s._prev <;> simp [EMASmoother.update, hs]

/-- One controller update on a `badFrame` keeps and returns the stored
last accepted rectangle. -/
lemma update_bad_keeps_last (c : RectangleController) (R0 : Rect)
    (f : List Point × ℤ × ℤ) (hb : badFrame c f = true)
    (h0 : c._last_rect = some R0) :
    (c.update f.1 f.2.1 f.2.2).1._last_rect = some R0 ∧
    (c.update f.1 f.2.1 f.2.2).2 = some R0 := by
  obtain ⟨tips, w, h⟩ := f
  match tips with
  | [] => simp [RectangleController.update, h0]
  | [t1] => simp [RectangleController.update, h0]
  | t1 :: t2 :: rest =>
      simp only [badFrame, Bool.not_eq_true'] at hb
      simp [RectangleController.update, hb, h0]

/-- C5: from a state holding an accepted rectangle `R0`, any number of
consecutive updates on frames with fewer than two points or an invalid
derived rectangle leaves `R0` stored and returns `R0` each time. -/
theorem controller_gap_persistence (c : RectangleController) (R0 : Rect)
    (fs : List (List Point × ℤ × ℤ))
    (h0 : c._last_rect = some R0) (hg : gapFrames c fs = true) :
    (c.run fs)._last_rect = some R0 ∧
    c.runOutputs fs = List.replicate fs.length (some R0) := by
  induction fs generalizing c with
  | nil => simpa [RectangleController.run, RectangleController.runOutputs] using h0
  | cons f fs ih =>
      simp only [gapFrames, Bool.and_eq_true] at hg
      have step := update_bad_keeps_last c R0 f hg.1 h0
      have tail := ih _ step.1 hg.2
      refine ⟨tail.1, ?_⟩
      simp [RectangleController.runOutputs, step.2, tail.2, List.replicate_succ]

/-- C5 witness: a stored rectangle survives an empty frame followed by a
two-point frame whose rectangle is below the minimum size. -/
theorem controller_gap_persistence_witness :
    (RectangleController.mk (Config.mk 0 3) (EMASmoother.mk 0 none)
        (EMASmoother.mk 0 none) (some (Rect.mk 10 10 50 50)))._last_rect =
      some (Rect.mk 10 10 50 50) ∧
    gapFrames (RectangleController.mk (Config.mk 0 3) (EMASmoother.mk 0 none)
        (EMASmoother.mk 0 none) (some (Rect.mk 10 10 50 50)))
      [([], 640, 480), ([Point.mk 0 0, Point.mk 1 1], 640, 480)] = true ∧
    (((RectangleController.mk (Config.mk 0 3) (EMASmoother.mk 0 none)
        (EMASmoother.mk 0 none) (some (Rect.mk 10 10 50 50))).run
        [([], 640, 480), ([Point.mk 0 0, Point.mk 1 1], 640, 480)])._last_rect =
      some (Rect.mk 10 10 50 50) ∧
     (RectangleController.mk (Config.mk 0 3) (EMASmoother.mk 0 none)
        (EMASmoother.mk 0 none) (some (Rect.mk 10 10 50 50))).runOutputs
        [([], 640, 480), ([Point.mk 0 0, Point.mk 1 1], 640, 480)] =
      List.replicate
        ([([], 640, 480), ([Point.mk 0 0, Point.mk 1 1], 640, 480)] :
          List (List Point × ℤ × ℤ)).length (some (Rect.mk 10 10 50 50))) :=
  ⟨rfl, by decide,
    controller_gap_persistence _ (Rect.mk 10 10 50 50) _ rfl (by decide)⟩

/-- C10: an update with two (or more) observed points advances both
smoothers — slot 0 with the first point, slot 1 with the second, each
remembering its new smoothed output — even when the derived rectangle
fails the validity check and the last accepted rectangle stays unchanged. -/
theorem rejected_frame_advances_smoothers (c : RectangleController)
    (t1 t2 : Point) (rest : List Point) (w h : ℤ)
    (hbad : ((Rect.mk (c._smooth1.update t1).2.x (c._smooth1.update t1).2.y
        (c._smooth2.update t2).2.x (c._smooth2.update t2).2.y).ordered.clamp
        w h).valid c.cfg.min_rect_size = false) :
    (c.update (t1 :: t2 :: rest) w h).1._smooth1 = (c._smooth1.update t1).1 ∧
    (c.update (t1 :: t2 :: rest) w h).1._smooth2 = (c._smooth2.update t2).1 ∧
    (c.update (t1 :: t2 :: rest) w h).1._smooth1._prev =
      some (c._smooth1.update t1).2 ∧
    (c.update (t1 :: t2 :: rest) w h).1._smooth2._prev =
      some (c._smooth2.update t2).2 ∧
    (c.update (t1 :: t2 :: rest) w h).1._last_rect = c._last_rect := by
  simp [RectangleController.update, hbad, update_stores_output]

/-- C10 witness: a sub-minimum two-point frame advances both smoothers. -/
theorem rejected_frame_advances_smoothers_witness :
    ((Rect.mk ((RectangleController.mk (Config.mk 0 3) (EMASmoother.mk 0 none)
          (EMASmoother.mk 0 none) none)._smooth1.update (Point.mk 0 0)).2.x
        ((RectangleController.mk (Config.mk 0 3) (EMASmoother.mk 0 none)
          (EMASmoother.mk 0 none) none)._smooth1.update (Point.mk 0 0)).2.y
        ((RectangleController.mk (Config.mk 0 3) (EMASmoother.mk 0 none)
          (EMASmoother.mk 0 none) none)._smooth2.update (Point.mk 1 1)).2.x
        ((RectangleController.mk (Config.mk 0 3) (EMASmoother.mk 0 none)
          (EMASmoother.mk 0 none) none)._smooth2.update (Point.mk 1 1)).2.y).ordered.clamp
        640 480).valid
      (RectangleController.mk (Config.mk 0 3) (EMASmoother.mk 0 none)
        (EMASmoother.mk 0 none) none).cfg.min_rect_size = false ∧
    (((RectangleController.mk (Config.mk 0 3) (EMASmoother.mk 0 none)
        (EMASmoother.mk 0 none) none).update [Point.mk 0 0, Point.mk 1 1]
        640 480).1._smooth1 =
      ((RectangleController.mk (Config.mk 0 3) (EMASmoother.mk 0 none)
        (EMASmoother.mk 0 none) none)._smooth1.update (Point.mk 0 0)).1 ∧
     ((RectangleController.mk (Config.mk 0 3) (EMASmoother.mk 0 none)
        (EMASmoother.mk 0 none) none).update [Point.mk 0 0, Point.mk 1 1]
        640 480).1._smooth2 =
      ((RectangleController.mk (Config.mk 0 3) (EMASmoother.mk 0 none)
        (EMASmoother.mk 0 none) none)._smooth2.update (Point.mk 1 1)).1 ∧
     ((RectangleController.mk (Config.mk 0 3) (EMASmoother.mk 0 none)
        (EMASmoother.mk 0 none) none).update [Point.mk 0 0, Point.mk 1 1]
        640 480).1._smooth1._prev =
      some ((RectangleController.mk (Config.mk 0 3) (EMASmoother.mk 0 none)
        (EMASmoother.mk 0 none) none)._smooth1.update (Point.mk 0 0)).2 ∧
     ((RectangleController.mk (Config.mk 0 3) (EMASmoother.mk 0 none)
        (EMASmoother.mk 0 none) none).update [Point.mk 0 0, Point.mk 1 1]
        640 480).1._smooth2._prev =
      some ((RectangleController.mk (Config.mk 0 3) (EMASmoother.mk 0 none)
        (EMASmoother.mk 0 none) none)._smooth2.update (Point.mk 1 1)).2 ∧
     ((RectangleController.mk (Config.mk 0 3) (EMASmoother.mk 0 none)
        (EMASmoother.mk 0 none) none).update [Point.mk 0 0, Point.mk 1 1]
        640 480).1._last_rect =
      (RectangleController.mk (Config.mk 0 3) (EMASmoother.mk 0 none)
        (EMASmoother.mk 0 none) none)._last_rect) :=
  ⟨by decide,
    rejected_frame_advances_smoothers _ (Point.mk 0 0) (Point.mk 1 1) [] 640 480
      (by decide)⟩
/-- `pyInt` of an integer is that integer. -/
lemma pyInt_intCast (z : ℤ) : pyInt (z : ℚ) = z := by
  unfold pyInt
  split <;> simp

/-- For a nonnegative argument `pyInt` is the floor. -/
lemma pyInt_nonneg (q : ℚ) (h : 0 ≤ q) : pyInt q = ⌊q⌋ := if_pos h

/-- The EMA step fixes its own observation. -/
lemma emaAxis_self (alpha : ℚ) (p : ℤ) : emaAxis alpha p p = p := by
  unfold emaAxis
  have h : (p : ℚ) * (1 - alpha) + (p : ℚ) * alpha = ((p : ℤ) : ℚ) := by ring
  rw [h, pyInt_intCast]

/-- With `0 < α ≤ 1`, `0 ≤ p ≤ x`, the truncated EMA step from `x` toward
`p` stays in `[p, x]` and moves strictly below `x` whenever `p < x`. -/
lemma emaAxis_bounds (alpha : ℚ) (p x : ℤ) (h0 : 0 < alpha) (h1 : alpha ≤ 1)
    (hp : 0 ≤ p) (hpx : p ≤ x) :
    p ≤ emaAxis alpha x p ∧ emaAxis alpha x p ≤ x ∧
    (p < x → emaAxis alpha x p < x) := by
  have hpq : (p : ℚ) ≤ (x : ℚ) := by exact_mod_cast hpx
  have hpq0 : (0 : ℚ) ≤ (p : ℚ) := by exact_mod_cast hp
  have key1 : (0 : ℚ) ≤ ((x : ℚ) - p) * (1 - alpha) :=
    mul_nonneg (by linarith) (by linarith)
  have key2 : (0 : ℚ) ≤ alpha * ((x : ℚ) - p) := mul_nonneg h0.le (by linarith)
  have hv1 : (p : ℚ) ≤ (x : ℚ) * (1 - alpha) + (p : ℚ) * alpha := by nlinarith
  have hv2 : (x : ℚ) * (1 - alpha) + (p : ℚ) * alpha ≤ (x : ℚ) := by nlinarith
  have hvnn : (0 : ℚ) ≤ (x : ℚ) * (1 - alpha) + (p : ℚ) * alpha :=
    le_trans hpq0 hv1
  unfold emaAxis
  rw [pyInt_nonneg _ hvnn]
  refine ⟨Int.le_floor.mpr hv1, ?_, ?_⟩
  · have hf := Int.floor_le_floor hv2
    simpa using hf
  · intro hlt
    have hpxq : (p : ℚ) < (x : ℚ) := by exact_mod_cast hlt
    have key3 : (0 : ℚ) < alpha * ((x : ℚ) - p) := mul_pos h0 (by linarith)
    exact Int.floor_lt.mpr (by nlinarith)

/-- The iterated truncated EMA never drops below the constant observation. -/
lemma emaAxisIter_ge (alpha : ℚ) (p x : ℤ) (h0 : 0 < alpha) (h1 : alpha ≤ 1)
    (hp : 0 ≤ p) (hpx : p ≤ x) : ∀ n, p ≤ emaAxisIter alpha p n x := by
  intro n
  induction n with
  | zero => simpa [emaAxisIter] using hpx
  | succ n ih =>
      rw [emaAxisIter]
      exact (emaAxis_bounds alpha p _ h0 h1 hp ih).1

/-- The iterated truncated EMA is monotone nonincreasing from above. -/
lemma emaAxisIter_mono (alpha : ℚ) (p x : ℤ) (h0 : 0 < alpha) (h1 : alpha ≤ 1)
    (hp : 0 ≤ p) (hpx : p ≤ x) (n : ℕ) :
    emaAxisIter alpha p (n + 1) x ≤ emaAxisIter alpha p n x := by
  rw [emaAxisIter]
  exact (emaAxis_bounds alpha p _ h0 h1 hp
    (emaAxisIter_ge alpha p x h0 h1 hp hpx n)).2.1

/-- While strictly above the observation, each iterate strictly decreases. -/
lemma emaAxisIter_strict (alpha : ℚ) (p x : ℤ) (h0 : 0 < alpha) (h1 : alpha ≤ 1)
    (hp : 0 ≤ p) (hpx : p ≤ x) (n : ℕ)
    (hlt : p < emaAxisIter alpha p n x) :
    emaAxisIter alpha p (n + 1) x < emaAxisIter alpha p n x := by
  rw [emaAxisIter]
  exact (emaAxis_bounds alpha p _ h0 h1 hp
    (emaAxisIter_ge alpha p x h0 h1 hp hpx n)).2.2 hlt

/-- Once an iterate equals the observation, the next one does too. -/
lemma emaAxisIter_fix (alpha : ℚ) (p x : ℤ) (n : ℕ)
    (h : emaAxisIter alpha p n x = p) :
    emaAxisIter alpha p (n + 1) x = p := by
  rw [emaAxisIter, h, emaAxis_self]

/-- Every iterate has either reached the observation or lost at least one
unit per step from the start. -/
lemma emaAxisIter_reach (alpha : ℚ) (p x : ℤ) (h0 : 0 < alpha) (h1 : alpha ≤ 1)
    (hp : 0 ≤ p) (hpx : p ≤ x) :
    ∀ n : ℕ, emaAxisIter alpha p n x = p ∨ emaAxisIter alpha p n x + n ≤ x := by
  intro n
  induction n with
  | zero => right; simp [emaAxisIter]
  | succ n ih =>
      rcases ih with h | h
      · exact Or.inl (emaAxisIter_fix alpha p x n h)
      · rcases eq_or_lt_of_le (emaAxisIter_ge alpha p x h0 h1 hp hpx n) with
          he | hlt
        · exact Or.inl (emaAxisIter_fix alpha p x n he.symm)
        · right
          have hs := emaAxisIter_strict alpha p x h0 h1 hp hpx n hlt
          omega

/-- After `x - p` steps the iterate is exactly the observation. -/
lemma emaAxisIter_exact (alpha : ℚ) (p x : ℤ) (h0 : 0 < alpha) (h1 : alpha ≤ 1)
    (hp : 0 ≤ p) (hpx : p ≤ x) :
    emaAxisIter alpha p ((x - p).toNat) x = p := by
  rcases emaAxisIter_reach alpha p x h0 h1 hp hpx ((x - p).toNat) with h | h
  · exact h
  · have hge := emaAxisIter_ge alpha p x h0 h1 hp hpx ((x - p).toNat)
    have ht : (((x - p).toNat : ℕ) : ℤ) = x - p := Int.toNat_of_nonneg (by omega)
    omega

/-- The observation, once reached, is kept by all later iterates. -/
lemma emaAxisIter_stable (alpha : ℚ) (p x : ℤ) (m n : ℕ)
    (h : emaAxisIter alpha p n x = p) :
    emaAxisIter alpha p (n + m) x = p := by
  induction m with
  | zero => simpa using h
  | succ m ih => exact emaAxisIter_fix alpha p x (n + m) ih

/-- Running the smoother on a constant input decomposes into the pure
per-axis iterations. -/
lemma runConst_axes (alpha : ℚ) (qx qy px py : ℤ) (n : ℕ) :
    (EMASmoother.mk alpha (some (Point.mk qx qy))).runConst (Point.mk px py) n
      = EMASmoother.mk alpha (some (Point.mk (emaAxisIter alpha px n qx)
          (emaAxisIter alpha py n qy))) := by
  induction n with
  | zero => rfl
  | succ n ih =>
      rw [EMASmoother.runConst, ih]
      simp [EMASmoother.update, emaAxisIter]
/-- C1 counterexample: with `α = 2/5 ∈ (0,1]`, a smoother initialized at
`Q = (0,0)` and then fed the constant point `P = (1,1)` returns `Q` and
keeps state `Q` — a fixed point, so the outputs never strictly approach
`P` and never become `P`. -/
theorem smoother_truncation_stalls :
    ((EMASmoother.mk (2/5) none).update (Point.mk 0 0)).1
        = EMASmoother.mk (2/5) (some (Point.mk 0 0)) ∧
    (EMASmoother.mk (2/5) (some (Point.mk 0 0))).update (Point.mk 1 1)
        = (EMASmoother.mk (2/5) (some (Point.mk 0 0)), Point.mk 0 0) ∧
    (EMASmoother.mk (2/5) (some (Point.mk 0 0))).runConst (Point.mk 1 1) 5
        = EMASmoother.mk (2/5) (some (Point.mk 0 0)) ∧
    Point.mk 0 0 ≠ Point.mk 1 1 := by
  have hstep : (EMASmoother.mk (2/5) (some (Point.mk 0 0))).update (Point.mk 1 1)
      = (EMASmoother.mk (2/5) (some (Point.mk 0 0)), Point.mk 0 0) := by
    have hax : emaAxis (2/5) 0 1 = 0 := by
      unfold emaAxis pyInt
      norm_num
    simp [EMASmoother.update, hax]
  refine ⟨rfl, hstep, ?_, by decide⟩
  simp [EMASmoother.runConst, hstep]

/-- C1 amended: for `α ∈ (0,1]` and a constant input `P` with nonnegative
coordinates approached from above (`P ≤ Q` per axis), the smoother's
remembered point follows the pure per-axis truncated EMA iteration, which
is monotone nonincreasing, bounded below by `P`, strictly decreasing while
above `P`, and exactly `P` after `max (Q.x - P.x) (Q.y - P.y)` calls.
(Approached from below, truncation can stall short of `P`.) -/
theorem smoother_truncated_convergence (alpha : ℚ) (Q P : Point) (n : ℕ)
    (h0 : 0 < alpha) (h1 : alpha ≤ 1) (hx0 : 0 ≤ P.x) (hy0 : 0 ≤ P.y)
    (hx : P.x ≤ Q.x) (hy : P.y ≤ Q.y) :
    ((EMASmoother.mk alpha none).update Q).1.runConst P n
        = EMASmoother.mk alpha (some (Point.mk (emaAxisIter alpha P.x n Q.x)
            (emaAxisIter alpha P.y n Q.y))) ∧
    P.x ≤ emaAxisIter alpha P.x n Q.x ∧
    emaAxisIter alpha P.x (n + 1) Q.x ≤ emaAxisIter alpha P.x n Q.x ∧
    (P.x < emaAxisIter alpha P.x n Q.x →
      emaAxisIter alpha P.x (n + 1) Q.x < emaAxisIter alpha P.x n Q.x) ∧
    P.y ≤ emaAxisIter alpha P.y n Q.y ∧
    emaAxisIter alpha P.y (n + 1) Q.y ≤ emaAxisIter alpha P.y n Q.y ∧
    (P.y < emaAxisIter alpha P.y n Q.y →
      emaAxisIter alpha P.y (n + 1) Q.y < emaAxisIter alpha P.y n Q.y) ∧
    ((EMASmoother.mk alpha none).update Q).1.runConst P
        ((Q.x - P.x).toNat ⊔ (Q.y - P.y).toNat)
      = EMASmoother.mk alpha (some P) := by
  obtain ⟨qx, qy⟩ := Q
  obtain ⟨px, py⟩ := P
  have hinit : ((EMASmoother.mk alpha none).update (Point.mk qx qy)).1
      = EMASmoother.mk alpha (some (Point.mk qx qy)) := rfl
  refine ⟨?_, emaAxisIter_ge alpha px qx h0 h1 hx0 hx n,
    emaAxisIter_mono alpha px qx h0 h1 hx0 hx n,
    fun hlt => emaAxisIter_strict alpha px qx h0 h1 hx0 hx n hlt,
    emaAxisIter_ge alpha py qy h0 h1 hy0 hy n,
    emaAxisIter_mono alpha py qy h0 h1 hy0 hy n,
    fun hlt => emaAxisIter_strict alpha py qy h0 h1 hy0 hy n hlt, ?_⟩
  · rw [hinit, runConst_axes]
  · rw [hinit, runConst_axes]
    have hx1 : emaAxisIter alpha px ((qx - px).toNat ⊔ (qy - py).toNat) qx
        = px := by
      have hsplit : (qx - px).toNat ⊔ (qy - py).toNat
          = (qx - px).toNat + ((qx - px).toNat ⊔ (qy - py).toNat
              - (qx - px).toNat) := by omega
      rw [hsplit]
      exact emaAxisIter_stable alpha px qx _ _
        (emaAxisIter_exact alpha px qx h0 h1 hx0 hx)
    have hy1 : emaAxisIter alpha py ((qx - px).toNat ⊔ (qy - py).toNat) qy
        = py := by
      have hsplit : (qx - px).toNat ⊔ (qy - py).toNat
          = (qy - py).toNat + ((qx - px).toNat ⊔ (qy - py).toNat
              - (qy - py).toNat) := by omega
      rw [hsplit]
      exact emaAxisIter_stable alpha py qy _ _
        (emaAxisIter_exact alpha py qy h0 h1 hy0 hy)
    rw [hx1, hy1]

/-- C1 witness: `α = 1/2`, `Q = (4,2)`, `P = (1,0)`, one step observed. -/
theorem smoother_truncated_convergence_witness :
    (0 : ℚ) < 1/2 ∧ (1/2 : ℚ) ≤ 1 ∧ (0 : ℤ) ≤ (Point.mk 1 0).x ∧
    (0 : ℤ) ≤ (Point.mk 1 0).y ∧ (Point.mk 1 0).x ≤ (Point.mk 4 2).x ∧
    (Point.mk 1 0).y ≤ (Point.mk 4 2).y ∧
    (((EMASmoother.mk (1/2) none).update (Point.mk 4 2)).1.runConst
          (Point.mk 1 0) 1
        = EMASmoother.mk (1/2)
            (some (Point.mk (emaAxisIter (1/2) (Point.mk 1 0).x 1 (Point.mk 4 2).x)
              (emaAxisIter (1/2) (Point.mk 1 0).y 1 (Point.mk 4 2).y))) ∧
      (Point.mk 1 0).x ≤ emaAxisIter (1/2) (Point.mk 1 0).x 1 (Point.mk 4 2).x ∧
      emaAxisIter (1/2) (Point.mk 1 0).x (1 + 1) (Point.mk 4 2).x
        ≤ emaAxisIter (1/2) (Point.mk 1 0).x 1 (Point.mk 4 2).x ∧
      ((Point.mk 1 0).x < emaAxisIter (1/2) (Point.mk 1 0).x 1 (Point.mk 4 2).x →
        emaAxisIter (1/2) (Point.mk 1 0).x (1 + 1) (Point.mk 4 2).x
          < emaAxisIter (1/2) (Point.mk 1 0).x 1 (Point.mk 4 2).x) ∧
      (Point.mk 1 0).y ≤ emaAxisIter (1/2) (Point.mk 1 0).y 1 (Point.mk 4 2).y ∧
      emaAxisIter (1/2) (Point.mk 1 0).y (1 + 1) (Point.mk 4 2).y
        ≤ emaAxisIter (1/2) (Point.mk 1 0).y 1 (Point.mk 4 2).y ∧
      ((Point.mk 1 0).y < emaAxisIter (1/2) (Point.mk 1 0).y 1 (Point.mk 4 2).y →
        emaAxisIter (1/2) (Point.mk 1 0).y (1 + 1) (Point.mk 4 2).y
          < emaAxisIter (1/2) (Point.mk 1 0).y 1 (Point.mk 4 2).y) ∧
      ((EMASmoother.mk (1/2) none).update (Point.mk 4 2)).1.runConst
          (Point.mk 1 0)
          (((Point.mk 4 2).x - (Point.mk 1 0).x).toNat
            ⊔ ((Point.mk 4 2).y - (Point.mk 1 0).y).toNat)
        = EMASmoother.mk (1/2) (some (Point.mk 1 0))) :=
  ⟨by norm_num, by norm_num, by decide, by decide, by decide, by decide,
    smoother_truncated_convergence (1/2) (Point.mk 4 2) (Point.mk 1 0) 1
      (by norm_num) (by norm_num) (by decide) (by decide) (by decide)
      (by decide)⟩
